import Mathlib

/-!
Shallow embedding of the tiered caching API gateway of the f1-mcp-server
repository: the `F1ApiClient` class talking to the Jolpica F1 API.
We model the JSON documents it moves around, JavaScript truthiness (used by
the cache-hit check and the `||` fallbacks), TTL classification, error
normalisation, the cached request flow, endpoint path construction and the
health check.
-/

namespace F1Gateway

/-- JSON-like documents exchanged with the upstream API and stored in the
cache (`response.data` of axios). -/
inductive Json where
  | null : Json
  | bool : Bool → Json
  | num : Int → Json
  | str : String → Json
  | arr : List Json → Json
  | obj : List (String × Json) → Json

/-- JavaScript truthiness of a JSON value: `null`, `false`, `0` and `""` are
falsy; every array and object (even empty) is truthy. -/
def truthy : Json → Bool
  | Json.null => false
  | Json.bool b => b
  | Json.num n => n != 0
  | Json.str s => s != ""
  | Json.arr _ => true
  | Json.obj _ => true

/-- Field lookup in the field list of a JSON object (first match wins). -/
def getField : List (String × Json) → String → Option Json
  | [], _ => none
  | (k, v) :: rest, key => if k == key then some v else getField rest key

/-- JavaScript property access `j.f` as used in the gateway: yields the field
for objects and `undefined` (here `none`) for other values.  (JS would throw
a `TypeError` for `null`; theorems touching this case carry an explicit
`≠ Json.null` hypothesis.) -/
def jsField : Json → String → Option Json
  | Json.obj fs, f => getField fs f
  | _, _ => none

/-- Optional chaining `v?.f`: `undefined` propagates. -/
def chain : Option Json → String → Option Json
  | some j, f => jsField j f
  | none, _ => none

/-- JavaScript `x || d` for a possibly-undefined JSON value `x`: the value if
it is defined and truthy, otherwise the default. -/
def jsOr : Option Json → Json → Json
  | some j, d => if truthy j then j else d
  | none, d => d

/-- JavaScript `x || d` for a possibly-undefined string: the empty string is
falsy and falls back. -/
def jsOrStr : Option String → String → String
  | some s, d => if s == "" then d else s
  | none, d => d

/-- JavaScript `String.prototype.includes`: substring containment. -/
def jsIncludes (s pat : String) : Bool := decide (pat.data <:+: s.data)

/-- Embeds `F1ApiClient.getCacheTTL`: classify an endpoint path into a TTL (in
seconds) by substring tests, in source order. -/
def getCacheTTL (endpoint : String) : Nat :=
  if jsIncludes endpoint "current" then 60
  else if jsIncludes endpoint "standings" || jsIncludes endpoint "results" then 300
  else if jsIncludes endpoint "drivers" || jsIncludes endpoint "constructors" then 3600
  else 1800

/-- Normalized error taxonomy of the gateway (spec §3): the three error shapes
produced by `F1ApiClient.formatError`. -/
inductive F1Error where
  | upstreamError (message : String) (status : Nat) (code : String) : F1Error
  | networkError (message : String) (code : String) : F1Error
  | requestError (message : String) : F1Error
  deriving DecidableEq, Repr

/-- The `data?.error` sub-object of an upstream error response body, with its
two optional fields read by `formatError`. -/
structure UpstreamErrorBody where
  message : Option String
  code : Option String
  deriving DecidableEq, Repr

/-- An upstream HTTP response as seen by `formatError`: its status and the
(possibly absent) `error` object inside its body. -/
structure AxiosResponse where
  status : Nat
  errorBody : Option UpstreamErrorBody
  deriving DecidableEq, Repr

/-- An axios failure: `response` is present when the upstream answered with a
non-2xx status, `requestSent` is the truthiness of `error.request` (the
request went out but no response arrived), and `message` is the raw error
message. -/
structure AxiosError where
  message : String
  response : Option AxiosResponse
  requestSent : Bool
  deriving DecidableEq, Repr

/-- Embeds `F1ApiClient.formatError`: normalize an axios failure, most specific
first (`error.response`, then `error.request`, then pass-through). -/
def formatError (e : AxiosError) : F1Error :=
  match e.response with
  | some r =>
      F1Error.upstreamError
        (jsOrStr (r.errorBody.bind (fun b => b.message)) "F1 API request failed")
        r.status
        (jsOrStr (r.errorBody.bind (fun b => b.code)) "API_ERROR")
  | none =>
      if e.requestSent then
        F1Error.networkError "Jolpica F1 API service unavailable" "NETWORK_ERROR"
      else
        F1Error.requestError e.message

/-- Outcome of the upstream GET issued by `healthCheck`. -/
inductive HealthOutcome where
  | response (status : Nat) : HealthOutcome
  | noResponse : HealthOutcome
  | setupFailure : HealthOutcome
  deriving DecidableEq, Repr

/-- The axios default `validateStatus` policy: a response resolves the promise exactly
when its status is in [200, 300). -/
def validateStatus (s : Nat) : Bool := decide (200 ≤ s) && decide (s < 300)

/-- Embeds `F1ApiClient.healthCheck`: a 2xx response reaches the `try` branch and is
compared with `=== 200`; a non-2xx response is rejected by axios and, like a
network or setup failure, lands in the `catch` branch which returns `false`. -/
def healthCheck : HealthOutcome → Bool
  | HealthOutcome.response s => if validateStatus s then s == 200 else false
  | HealthOutcome.noResponse => false
  | HealthOutcome.setupFailure => false

/-- A stored cache entry: the value and its absolute expiry time (seconds).
the node-cache method `set(key, value, ttl)` records `expiry = now + ttl`. -/
structure CacheEntry where
  value : Json
  expiry : Nat

/-- The cache store: an association list, most recent entry first (a `set`
shadows any older entry under the same key, as in node-cache). -/
abbrev Cache := List (String × CacheEntry)

/-- Embeds the node-cache method `get`: the stored value of the most recent entry for the
key, provided it has not expired; otherwise `undefined` (`none`). -/
def cacheGet (cache : Cache) (now : Nat) (key : String) : Option Json :=
  match cache with
  | [] => none
  | (k, entry) :: rest =>
      if k == key then
        if now < entry.expiry then some entry.value else none
      else cacheGet rest now key

/-- Embeds the node-cache method `set`: store `value` under `key` with expiry `now + ttl`. -/
def cacheSet (cache : Cache) (key : String) (value : Json) (ttl now : Nat) : Cache :=
  (key, ⟨value, now + ttl⟩) :: cache

/-- The upstream client (`this.client.get` after the response interceptor):
for each endpoint path, either a response body or a normalized error. -/
abbrev Upstream := String → Except F1Error Json

/-- Outcome of one `makeRequest` call: the returned value or thrown error,
the cache afterwards, and whether the upstream client was invoked
(instrumentation for the "no HTTP request is issued" claims). -/
structure RequestResult where
  result : Except F1Error Json
  cache : Cache
  upstreamCalled : Bool

/-- The fetch-and-store arm of `makeRequest` (the `try`/`catch` block): call
the upstream; on success cache the body under the endpoint key with the
classified TTL and return it; on failure re-throw and leave the cache
untouched. -/
def fetchAndStore (cache : Cache) (now : Nat) (upstream : Upstream)
    (endpoint : String) : RequestResult :=
  match upstream endpoint with
  | Except.ok data =>
      ⟨Except.ok data, cacheSet cache endpoint data (getCacheTTL endpoint) now, true⟩
  | Except.error e => ⟨Except.error e, cache, true⟩

/-- Embeds `F1ApiClient.makeRequest`: the cache key is the endpoint path itself;
`const cached = this.cache.get(cacheKey); if (cached) return cached;` — note
the JavaScript truthiness test: a falsy cached value is treated as a miss. -/
def makeRequest (cache : Cache) (now : Nat) (upstream : Upstream)
    (endpoint : String) : RequestResult :=
  match cacheGet cache now endpoint with
  | some cached =>
      if truthy cached then ⟨Except.ok cached, cache, false⟩
      else fetchAndStore cache now upstream endpoint
  | none => fetchAndStore cache now upstream endpoint

/-- Path resolved by `getRaces`: `` `/${season}.json` ``. -/
def racesPath (season : String) : String := "/" ++ season ++ ".json"

/-- Path resolved by `getCurrentSeason`: the literal `/current.json`. -/
def currentSeasonPath : String := "/current.json"

/-- Path resolved by `getRace`: `` `/${season}/${round}.json` `` (the round
is interpolated into the template as a string). -/
def racePath (season round : String) : String :=
  "/" ++ season ++ "/" ++ round ++ ".json"

/-- Path resolved by `getDriver`: `` `/${season}/drivers/${driverId}.json` ``. -/
def driverPath (season driverId : String) : String :=
  "/" ++ season ++ "/drivers/" ++ driverId ++ ".json"

/-- Path resolved by `getDriverStandings`: `` `/${season}/driverStandings.json` ``. -/
def driverStandingsPath (season : String) : String :=
  "/" ++ season ++ "/driverStandings.json"

/-- Path resolved by `getConstructorStandings`:
`` `/${season}/constructorStandings.json` ``. -/
def constructorStandingsPath (season : String) : String :=
  "/" ++ season ++ "/constructorStandings.json"

/-- The success envelope built by `getRaces`:
`{ success: true, data: data.MRData?.RaceTable?.Races || [], season:
data.MRData?.RaceTable?.season || season }`. -/
def racesEnvelope (data : Json) (season : String) : Json :=
  Json.obj
    [("success", Json.bool true),
     ("data", jsOr (chain (chain (jsField data "MRData") "RaceTable") "Races") (Json.arr [])),
     ("season", jsOr (chain (chain (jsField data "MRData") "RaceTable") "season") (Json.str season))]

/-- Embeds `F1ApiClient.getRaces`: request `/${season}.json` through the cache and
wrap a successful body in the races envelope (errors propagate). -/
def getRaces (cache : Cache) (now : Nat) (upstream : Upstream)
    (season : String) : RequestResult :=
  let r := makeRequest cache now upstream (racesPath season)
  ⟨r.result.map (fun data => racesEnvelope data season), r.cache, r.upstreamCalled⟩

/-- The success envelope built by `getCurrentSeason`; `currentYear` stands
for `new Date().getFullYear().toString()`. -/
def currentSeasonEnvelope (data : Json) (currentYear : String) : Json :=
  Json.obj
    [("success", Json.bool true),
     ("data", jsOr (chain (chain (jsField data "MRData") "RaceTable") "Races") (Json.arr [])),
     ("season", jsOr (chain (chain (jsField data "MRData") "RaceTable") "season") (Json.str currentYear))]

/-- Embeds `F1ApiClient.getCurrentSeason`: request `/current.json` through the
cache and wrap a successful body in its envelope. -/
def getCurrentSeason (cache : Cache) (now : Nat) (upstream : Upstream)
    (currentYear : String) : RequestResult :=
  let r := makeRequest cache now upstream currentSeasonPath
  ⟨r.result.map (fun data => currentSeasonEnvelope data currentYear), r.cache, r.upstreamCalled⟩

/-- The success envelope built by the two standings operations:
`{ success: true, data: data.MRData?.StandingsTable?.StandingsLists || [],
season: data.MRData?.StandingsTable?.season || season }`. -/
def standingsEnvelope (data : Json) (season : String) : Json :=
  Json.obj
    [("success", Json.bool true),
     ("data", jsOr (chain (chain (jsField data "MRData") "StandingsTable") "StandingsLists") (Json.arr [])),
     ("season", jsOr (chain (chain (jsField data "MRData") "StandingsTable") "season") (Json.str season))]

/-- Embeds `F1ApiClient.getDriverStandings`. -/
def getDriverStandings (cache : Cache) (now : Nat) (upstream : Upstream)
    (season : String) : RequestResult :=
  let r := makeRequest cache now upstream (driverStandingsPath season)
  ⟨r.result.map (fun data => standingsEnvelope data season), r.cache, r.upstreamCalled⟩

/-- Embeds `F1ApiClient.getConstructorStandings`. -/
def getConstructorStandings (cache : Cache) (now : Nat) (upstream : Upstream)
    (season : String) : RequestResult :=
  let r := makeRequest cache now upstream (constructorStandingsPath season)
  ⟨r.result.map (fun data => standingsEnvelope data season), r.cache, r.upstreamCalled⟩

/-- A parameter value is path-safe when it does not contain the path
separator. -/
abbrev noSlash (s : String) : Prop := ('/' : Char) ∉ s.data

/-- A season that avoids all five classification substrings. -/
abbrev cleanSeason (s : String) : Prop :=
  jsIncludes s "current" = false ∧ jsIncludes s "standings" = false ∧
  jsIncludes s "results" = false ∧ jsIncludes s "drivers" = false ∧
  jsIncludes s "constructors" = false

/-- An upstream that always fails with a fixed normalized error. -/
def failUpstream : Upstream := fun _ => Except.error (F1Error.requestError "boom")

/-- A sample raw upstream body for the races listing of season 2024. -/
def rawRaceBody : Json :=
  Json.obj [("MRData", Json.obj [("RaceTable",
    Json.obj [("season", Json.str "2024"),
              ("Races", Json.arr [Json.str "Bahrain Grand Prix"])])])]

/-- An upstream that always answers with `rawRaceBody`. -/
def okRaceUpstream : Upstream := fun _ => Except.ok rawRaceBody

/-- The envelope `getRaces` builds from `rawRaceBody`, written out. -/
def racesEnvelopeLit : Json :=
  Json.obj [("success", Json.bool true),
            ("data", Json.arr [Json.str "Bahrain Grand Prix"]),
            ("season", Json.str "2024")]

/-- An upstream that always answers with the JSON document `false` (a
perfectly valid, but falsy, JSON body). -/
def falseBodyUpstream : Upstream := fun _ => Except.ok (Json.bool false)

/-- An upstream that always answers with an empty JSON object (truthy). -/
def objUpstream : Upstream := fun _ => Except.ok (Json.obj [])

/-- A sample axios failure: upstream responded 404 with an error body. -/
def sampleUpstreamFailure : AxiosError :=
  ⟨"Request failed with status code 404",
   some ⟨404, some ⟨some "Not Found", some "NOT_FOUND"⟩⟩, true⟩

section ListFacts

open List

/-- A word avoiding `c`, sitting at the front of `a ++ c :: b`, sits at the
front of `a`. -/
theorem isPrefixOfAppendCons {α : Type*} {sub a b : List α} {c : α}
    (hc : c ∉ sub) (h : sub <+: a ++ c :: b) : sub <+: a := by
  induction sub generalizing a with
  | nil => exact nil_prefix
  | cons x sub ih =>
    cases a with
    | nil =>
      rw [nil_append] at h
      rcases cons_prefix_cons.1 h with ⟨hx, -⟩
      subst hx
      exact absurd (mem_cons_self x sub) hc
    | cons y a₂ =>
      rw [cons_append] at h
      rcases cons_prefix_cons.1 h with ⟨hx, htl⟩
      have hc₂ : c ∉ sub := fun hm => hc (mem_cons_of_mem x hm)
      exact cons_prefix_cons.2 ⟨hx, ih hc₂ htl⟩

/-- An occurrence avoiding `c` inside `a ++ c :: b` lies entirely in `a` or
entirely in `b`. -/
theorem isInfixAppendConsSplit {α : Type*} {sub a b : List α} {c : α}
    (hc : c ∉ sub) (h : sub <:+: a ++ c :: b) : sub <:+: a ∨ sub <:+: b := by
  induction a with
  | nil =>
    rw [nil_append] at h
    rcases infix_cons_iff.1 h with hp | hi
    · have h0 : sub <+: ([] : List α) := isPrefixOfAppendCons hc (by simpa using hp)
      rcases prefix_nil.1 h0 with rfl
      exact Or.inl nil_infix
    · exact Or.inr hi
  | cons x a₂ ih =>
    rw [cons_append] at h
    rcases infix_cons_iff.1 h with hp | hi
    · have h1 : sub <+: x :: a₂ := isPrefixOfAppendCons hc (by simpa using hp)
      exact Or.inl h1.isInfix
    · rcases ih hi with h1 | h2
      · exact Or.inl (infix_cons h1)
      · exact Or.inr h2

/-- Tokenization: splitting at a separator that occurs in neither side is
unambiguous. -/
theorem appendConsInj {α : Type*} {s₁ s₂ t₁ t₂ : List α} {c : α}
    (h₁ : c ∉ s₁) (h₂ : c ∉ s₂) (h : s₁ ++ c :: t₁ = s₂ ++ c :: t₂) :
    s₁ = s₂ ∧ t₁ = t₂ := by
  induction s₁ generalizing s₂ with
  | nil =>
    cases s₂ with
    | nil => simpa using h
    | cons y s₃ =>
      simp only [nil_append, cons_append, cons.injEq] at h
      rcases h with ⟨rfl, -⟩
      exact absurd (mem_cons_self c s₃) h₂
  | cons x s₃ ih =>
    cases s₂ with
    | nil =>
      simp only [nil_append, cons_append, cons.injEq] at h
      rcases h with ⟨rfl, -⟩
      exact absurd (mem_cons_self x s₃) h₁
    | cons y s₄ =>
      simp only [cons_append, cons.injEq] at h
      rcases h with ⟨rfl, h₃⟩
      have e₁ : c ∉ s₃ := fun hm => h₁ (mem_cons_of_mem x hm)
      have e₂ : c ∉ s₄ := fun hm => h₂ (mem_cons_of_mem x hm)
      rcases ih e₁ e₂ h₃ with ⟨rfl, rfl⟩
      exact ⟨rfl, rfl⟩

end ListFacts

/-- String append acts as list append on the underlying characters. -/
theorem data_append (s t : String) : (s ++ t).data = s.data ++ t.data := rfl

/-- Strings with the same characters are equal. -/
theorem string_eq_of_data {s t : String} (h : s.data = t.data) : s = t := by
  cases s
  cases t
  exact congrArg String.mk h

/-- Bridge between the Boolean `includes` test and list containment. -/
theorem jsIncludes_false_iff {s pat : String} :
    jsIncludes s pat = false ↔ ¬ pat.data <:+: s.data := by
  simp [jsIncludes]

/-- A pattern without a slash that occurs in neither `s` nor `t` does not
occur in the path `"/" ++ s ++ "/" ++ t`. -/
theorem jsIncludes_sepPath_false {s t pat : String}
    (hsep : ('/' : Char) ∉ pat.data) (hne : pat.data ≠ [])
    (hs : jsIncludes s pat = false) (ht : jsIncludes t pat = false) :
    jsIncludes ("/" ++ s ++ "/" ++ t) pat = false := by
  rw [jsIncludes_false_iff] at hs ht ⊢
  intro hin
  have hdata : ("/" ++ s ++ "/" ++ t).data = ('/' :: s.data) ++ '/' :: t.data := by
    simp only [data_append, List.append_assoc, List.cons_append]
    rfl
  rw [hdata] at hin
  rcases isInfixAppendConsSplit hsep hin with h1 | h2
  · have h3 : pat.data <:+: ([] : List Char) ++ '/' :: s.data := by simpa using h1
    rcases isInfixAppendConsSplit hsep h3 with h4 | h5
    · exact hne (List.infix_nil.1 h4)
    · exact hs h5
  · exact ht h2

/-- Any path `/{s}/{t}` whose two components avoid the five classification
substrings falls into the default TTL class. -/
theorem getCacheTTL_sepPath_default (s t : String) (hs : cleanSeason s)
    (ht1 : jsIncludes t "current" = false) (ht2 : jsIncludes t "standings" = false)
    (ht3 : jsIncludes t "results" = false) (ht4 : jsIncludes t "drivers" = false)
    (ht5 : jsIncludes t "constructors" = false) :
    getCacheTTL ("/" ++ s ++ "/" ++ t) = 1800 := by
  obtain ⟨h1, h2, h3, h4, h5⟩ := hs
  have g1 := jsIncludes_sepPath_false (by decide) (by decide) h1 ht1
  have g2 := jsIncludes_sepPath_false (by decide) (by decide) h2 ht2
  have g3 := jsIncludes_sepPath_false (by decide) (by decide) h3 ht3
  have g4 := jsIncludes_sepPath_false (by decide) (by decide) h4 ht4
  have g5 := jsIncludes_sepPath_false (by decide) (by decide) h5 ht5
  simp [getCacheTTL, g1, g2, g3, g4, g5]

/-- A key absent (or expired) now stays absent (or expired) at any later
time, as long as the cache is not written to. -/
theorem cacheGet_none_mono {cache : Cache} {now now₂ : Nat} {key : String}
    (h : cacheGet cache now key = none) (hle : now ≤ now₂) :
    cacheGet cache now₂ key = none := by
  induction cache with
  | nil => rfl
  | cons kv rest ih =>
    obtain ⟨k, entry⟩ := kv
    cases hk : (k == key) with
    | true =>
      simp only [cacheGet, hk, if_true] at h ⊢
      split at h
      · exact absurd h (by simp)
      · next hlt =>
        have : ¬ now₂ < entry.expiry := by omega
        rw [if_neg this]
    | false =>
      simp only [cacheGet, hk, Bool.false_eq_true, if_false] at h ⊢
      exact ih h

/-- A live truthy entry short-circuits `makeRequest`: the cached value comes
back, the cache is untouched, the upstream is not called. -/
theorem makeRequest_hit {cache : Cache} {now : Nat} {upstream : Upstream}
    {endpoint : String} {v : Json}
    (hget : cacheGet cache now endpoint = some v) (ht : truthy v = true) :
    makeRequest cache now upstream endpoint = ⟨Except.ok v, cache, false⟩ := by
  simp [makeRequest, hget, ht]

/-- A miss followed by a successful fetch stores the body under the endpoint
key with the classified TTL and returns the body. -/
theorem makeRequest_miss_ok {cache : Cache} {now : Nat} {upstream : Upstream}
    {endpoint : String} {body : Json}
    (hmiss : cacheGet cache now endpoint = none)
    (hok : upstream endpoint = Except.ok body) :
    makeRequest cache now upstream endpoint =
      ⟨Except.ok body, cacheSet cache endpoint body (getCacheTTL endpoint) now, true⟩ := by
  simp [makeRequest, hmiss, fetchAndStore, hok]

/-- A miss followed by a failed fetch re-throws the normalized error and
leaves the cache untouched. -/
theorem makeRequest_miss_error {cache : Cache} {now : Nat} {upstream : Upstream}
    {endpoint : String} {e : F1Error}
    (hmiss : cacheGet cache now endpoint = none)
    (hfail : upstream endpoint = Except.error e) :
    makeRequest cache now upstream endpoint = ⟨Except.error e, cache, true⟩ := by
  simp [makeRequest, hmiss, fetchAndStore, hfail]

/-- The freshly stored entry is served while it has not expired. -/
theorem cacheGet_cacheSet_fresh {cache : Cache} {key : String} {v : Json}
    {ttl now now₂ : Nat} (hfresh : now₂ < now + ttl) :
    cacheGet (cacheSet cache key v ttl now) now₂ key = some v := by
  simp [cacheSet, cacheGet, hfresh]

/-- Character decomposition of the races path. -/
theorem racesPath_data (s : String) :
    (racesPath s).data = ('/' :: s.data) ++ ".json".data := by
  simp only [racesPath, data_append, List.append_assoc]
  rfl

/-- Character decomposition of the race path at its separators. -/
theorem racePath_data (s r : String) :
    (racePath s r).data = ('/' :: s.data) ++ '/' :: (r.data ++ ".json".data) := by
  simp only [racePath, data_append, List.append_assoc]
  rfl

/-- Character decomposition of the driver path at its first separator. -/
theorem driverPath_data (s d : String) :
    (driverPath s d).data =
      ('/' :: s.data) ++ '/' :: ("drivers/".data ++ (d.data ++ ".json".data)) := by
  simp only [driverPath, data_append, List.append_assoc]
  rfl

/-- The single-parameter races path never collides. -/
theorem racesPath_inj {s₁ s₂ : String} (h : racesPath s₁ = racesPath s₂) :
    s₁ = s₂ := by
  have hd := congrArg String.data h
  rw [racesPath_data, racesPath_data] at hd
  have h1 : '/' :: s₁.data = '/' :: s₂.data := List.append_cancel_right hd
  injection h1 with h2 h3
  exact string_eq_of_data h3

/-- The race path is collision-free whenever the season values stay clear of
the path separator. -/
theorem racePath_inj {s₁ r₁ s₂ r₂ : String}
    (hs₁ : noSlash s₁) (hs₂ : noSlash s₂)
    (h : racePath s₁ r₁ = racePath s₂ r₂) : s₁ = s₂ ∧ r₁ = r₂ := by
  have hd := congrArg String.data h
  rw [racePath_data, racePath_data] at hd
  have hd₂ : s₁.data ++ '/' :: (r₁.data ++ ".json".data) =
      s₂.data ++ '/' :: (r₂.data ++ ".json".data) := by
    simpa using hd
  rcases appendConsInj hs₁ hs₂ hd₂ with ⟨hseq, hteq⟩
  exact ⟨string_eq_of_data hseq,
    string_eq_of_data (List.append_cancel_right hteq)⟩

/-- The driver path is collision-free whenever the season values stay clear
of the path separator. -/
theorem driverPath_inj {s₁ d₁ s₂ d₂ : String}
    (hs₁ : noSlash s₁) (hs₂ : noSlash s₂)
    (h : driverPath s₁ d₁ = driverPath s₂ d₂) : s₁ = s₂ ∧ d₁ = d₂ := by
  have hd := congrArg String.data h
  rw [driverPath_data, driverPath_data] at hd
  have hd₂ : s₁.data ++ '/' :: ("drivers/".data ++ (d₁.data ++ ".json".data)) =
      s₂.data ++ '/' :: ("drivers/".data ++ (d₂.data ++ ".json".data)) := by
    simpa using hd
  rcases appendConsInj hs₁ hs₂ hd₂ with ⟨hseq, hteq⟩
  have h₃ := List.append_cancel_left hteq
  exact ⟨string_eq_of_data hseq,
    string_eq_of_data (List.append_cancel_right h₃)⟩

/-- C1: the TTL chosen on a cache miss is classified by substring rules in
the source precedence order: "current" wins (60s); otherwise "standings" or
"results" (300s); otherwise "drivers" or "constructors" (3600s); otherwise
1800s — even when several substrings are present at once. -/
theorem ttl_classification (p : String) :
    (jsIncludes p "current" = true → getCacheTTL p = 60) ∧
    (jsIncludes p "current" = false →
      (jsIncludes p "standings" = true ∨ jsIncludes p "results" = true) →
      getCacheTTL p = 300) ∧
    (jsIncludes p "current" = false → jsIncludes p "standings" = false →
      jsIncludes p "results" = false →
      (jsIncludes p "drivers" = true ∨ jsIncludes p "constructors" = true) →
      getCacheTTL p = 3600) ∧
    (jsIncludes p "current" = false → jsIncludes p "standings" = false →
      jsIncludes p "results" = false → jsIncludes p "drivers" = false →
      jsIncludes p "constructors" = false → getCacheTTL p = 1800) := by
  refine ⟨?_, ?_, ?_, ?_⟩
  · intro h1
    simp [getCacheTTL, h1]
  · rintro h1 (h2 | h2) <;> simp [getCacheTTL, h1, h2]
  · rintro h1 h2 h3 (h4 | h4) <;> simp [getCacheTTL, h1, h2, h3, h4]
  · intro h1 h2 h3 h4 h5
    simp [getCacheTTL, h1, h2, h3, h4, h5]

/-- Witness for C1 at two concrete paths, including the precedence case of a
path containing both "current" and "drivers". -/
theorem ttl_classification_inst :
    getCacheTTL "/current/drivers.json" = 60 ∧
    getCacheTTL "/2024/5/results.json" = 300 :=
  ⟨(ttl_classification "/current/drivers.json").1 rfl,
   (ttl_classification "/2024/5/results.json").2.1 rfl (Or.inr rfl)⟩

/-- C2 counterexample: a populated, non-expired entry whose value is the JSON
document `null` does not short-circuit — the upstream IS invoked and the
call CAN fail, because `if (cached)` treats every falsy cached value as a
miss. -/
theorem cache_hit_falsy_refutes :
    cacheGet [("/2024.json", ⟨Json.null, 100⟩)] 0 "/2024.json" = some Json.null ∧
    (getRaces [("/2024.json", ⟨Json.null, 100⟩)] 0 failUpstream "2024").upstreamCalled
      = true ∧
    (getRaces [("/2024.json", ⟨Json.null, 100⟩)] 0 failUpstream "2024").result =
      Except.error (F1Error.requestError "boom") :=
  ⟨rfl, rfl, rfl⟩

/-- C2 as amended: a populated, non-expired entry whose value is truthy is
returned as-is, no upstream call is made and no error is possible. -/
theorem cache_hit_short_circuit (cache : Cache) (now : Nat) (upstream : Upstream)
    (endpoint : String) (v : Json)
    (hget : cacheGet cache now endpoint = some v) (ht : truthy v = true) :
    makeRequest cache now upstream endpoint = ⟨Except.ok v, cache, false⟩ :=
  makeRequest_hit hget ht

/-- Witness for the amended C2 at a concrete populated cache. -/
theorem cache_hit_short_circuit_inst :
    makeRequest [("/2024.json", ⟨Json.str "x", 100⟩)] 5 failUpstream "/2024.json" =
      ⟨Except.ok (Json.str "x"), [("/2024.json", ⟨Json.str "x", 100⟩)], false⟩ :=
  cache_hit_short_circuit [("/2024.json", ⟨Json.str "x", 100⟩)] 5 failUpstream
    "/2024.json" (Json.str "x") rfl rfl

/-- C3: when the fetch on a miss fails, the normalized error is re-thrown
unchanged, the cache is left exactly as it was, and the immediately
following call for the same key invokes the upstream again (no negative
caching). -/
theorem miss_failure_no_negative_caching (cache : Cache) (now now₂ : Nat)
    (upstream upstream₂ : Upstream) (endpoint : String) (e : F1Error)
    (hmiss : cacheGet cache now endpoint = none)
    (hfail : upstream endpoint = Except.error e)
    (hle : now ≤ now₂) :
    makeRequest cache now upstream endpoint = ⟨Except.error e, cache, true⟩ ∧
    (makeRequest cache now₂ upstream₂ endpoint).upstreamCalled = true := by
  refine ⟨makeRequest_miss_error hmiss hfail, ?_⟩
  have hmiss₂ := cacheGet_none_mono hmiss hle
  cases h2 : upstream₂ endpoint with
  | ok b => simp [makeRequest_miss_ok hmiss₂ h2]
  | error e₂ => simp [makeRequest_miss_error hmiss₂ h2]

/-- Witness for C3 on the empty cache with a failing upstream. -/
theorem miss_failure_no_negative_caching_inst :
    makeRequest [] 0 failUpstream "/2024.json" =
      ⟨Except.error (F1Error.requestError "boom"), [], true⟩ ∧
    (makeRequest [] 0 failUpstream "/2024.json").upstreamCalled = true :=
  miss_failure_no_negative_caching [] 0 0 failUpstream failUpstream "/2024.json"
    (F1Error.requestError "boom") rfl rfl (Nat.le_refl 0)

/-- C4: failures are classified most-specific first into exactly one of the
three kinds — a response present yields an upstream error carrying the
upstream status (with the body code when present and the generic message
when the body supplies none); a sent-but-unanswered request yields the fixed
network error; anything else passes the message through unchanged. -/
theorem error_taxonomy (e : AxiosError) :
    (∀ r, e.response = some r →
      formatError e = F1Error.upstreamError
        (jsOrStr (r.errorBody.bind (fun b => b.message)) "F1 API request failed")
        r.status
        (jsOrStr (r.errorBody.bind (fun b => b.code)) "API_ERROR")) ∧
    (∀ r b cc, e.response = some r → r.errorBody = some b → b.code = some cc →
      cc ≠ "" →
      formatError e = F1Error.upstreamError
        (jsOrStr (r.errorBody.bind (fun b => b.message)) "F1 API request failed")
        r.status cc) ∧
    (∀ r, e.response = some r → r.errorBody.bind (fun b => b.message) = none →
      formatError e = F1Error.upstreamError "F1 API request failed" r.status
        (jsOrStr (r.errorBody.bind (fun b => b.code)) "API_ERROR")) ∧
    (e.response = none → e.requestSent = true →
      formatError e =
        F1Error.networkError "Jolpica F1 API service unavailable" "NETWORK_ERROR") ∧
    (e.response = none → e.requestSent = false →
      formatError e = F1Error.requestError e.message) := by
  refine ⟨?_, ?_, ?_, ?_, ?_⟩
  · intro r hr
    simp [formatError, hr]
  · intro r b cc hr hb hcc hne
    simp [formatError, hr, hb, hcc, jsOrStr, hne]
  · intro r hr hm
    simp [formatError, hr, hm, jsOrStr]
  · intro hr hs
    simp [formatError, hr, hs]
  · intro hr hs
    simp [formatError, hr, hs]

/-- Witness for C4 at a concrete 404 with an error body. -/
theorem error_taxonomy_inst :
    formatError sampleUpstreamFailure =
      F1Error.upstreamError "Not Found" 404 "NOT_FOUND" :=
  (error_taxonomy sampleUpstreamFailure).1 ⟨404, some ⟨some "Not Found", some "NOT_FOUND"⟩⟩ rfl

/-- C5 counterexample: a successful `getRaces` call does NOT return the raw
upstream body — it returns the `{success, data, season}` envelope with the
races array projected out of the body. -/
theorem raw_body_envelope_refutes :
    (getRaces [] 0 okRaceUpstream "2024").result = Except.ok racesEnvelopeLit ∧
    racesEnvelopeLit ≠ rawRaceBody := by
  refine ⟨rfl, fun h => ?_⟩
  have h₂ : jsField racesEnvelopeLit "success" = jsField rawRaceBody "success" :=
    congrArg (fun j => jsField j "success") h
  have e₁ : jsField racesEnvelopeLit "success" = some (Json.bool true) := rfl
  have e₂ : jsField rawRaceBody "success" = none := rfl
  rw [e₁, e₂] at h₂
  exact Option.noConfusion h₂

/-- C5 as amended: a successful invocation returns the success envelope built
from the raw body (which itself is what gets cached), and an unsuccessful
invocation propagates the normalized error unchanged.  The `body ≠ null`
hypothesis marks the boundary of the embedding: on a `null` body the real
JavaScript code would throw a `TypeError` while building the envelope. -/
theorem envelope_success_or_error (cache : Cache) (now : Nat) (upstream : Upstream)
    (season : String) (body : Json)
    (hmiss : cacheGet cache now (racesPath season) = none)
    (hok : upstream (racesPath season) = Except.ok body)
    (_hnn : body ≠ Json.null) :
    (getRaces cache now upstream season).result =
      Except.ok (racesEnvelope body season) ∧
    ∀ (upstream₂ : Upstream) (e : F1Error),
      upstream₂ (racesPath season) = Except.error e →
      (getRaces cache now upstream₂ season).result = Except.error e := by
  constructor
  · simp [getRaces, makeRequest_miss_ok hmiss hok, Except.map]
  · intro u₂ e hfail
    simp [getRaces, makeRequest_miss_error hmiss hfail, Except.map]

/-- Witness for the amended C5 on the empty cache. -/
theorem envelope_success_or_error_inst :
    (getRaces [] 0 okRaceUpstream "2024").result =
      Except.ok (racesEnvelope rawRaceBody "2024") ∧
    ∀ (upstream₂ : Upstream) (e : F1Error),
      upstream₂ (racesPath "2024") = Except.error e →
      (getRaces [] 0 upstream₂ "2024").result = Except.error e :=
  envelope_success_or_error [] 0 okRaceUpstream "2024" rawRaceBody rfl rfl
    (fun h => Json.noConfusion h)

/-- C6 counterexample: two requests with different parameter values collide
on the same cache key, because parameters are spliced into the path template
and may themselves contain the separator. -/
theorem cache_key_collision :
    driverPath "a/drivers/b" "c" = driverPath "a" "b/drivers/c" ∧
    (("a/drivers/b", "c") : String × String) ≠ ("a", "b/drivers/c") :=
  ⟨rfl, by decide⟩

/-- C6 as amended: key derivation is deterministic, the single-parameter
races path is injective outright, and the two-parameter paths are injective
provided the season parameter does not contain the path separator. -/
theorem cache_key_deterministic_injective :
    (∀ s₁ r₁ s₂ r₂ : String, s₁ = s₂ → r₁ = r₂ → racePath s₁ r₁ = racePath s₂ r₂) ∧
    (∀ s₁ s₂ : String, racesPath s₁ = racesPath s₂ → s₁ = s₂) ∧
    (∀ s₁ r₁ s₂ r₂ : String, noSlash s₁ → noSlash s₂ →
      racePath s₁ r₁ = racePath s₂ r₂ → s₁ = s₂ ∧ r₁ = r₂) ∧
    (∀ s₁ d₁ s₂ d₂ : String, noSlash s₁ → noSlash s₂ →
      driverPath s₁ d₁ = driverPath s₂ d₂ → s₁ = s₂ ∧ d₁ = d₂) := by
  refine ⟨?_, ?_, ?_, ?_⟩
  · intro s₁ r₁ s₂ r₂ hs hr
    rw [hs, hr]
  · exact fun s₁ s₂ h => racesPath_inj h
  · exact fun s₁ r₁ s₂ r₂ h₁ h₂ h => racePath_inj h₁ h₂ h
  · exact fun s₁ d₁ s₂ d₂ h₁ h₂ h => driverPath_inj h₁ h₂ h

/-- Witness for the amended C6 at concrete slash-free parameters. -/
theorem cache_key_deterministic_injective_inst :
    ("2024" : String) = "2024" ∧ ("5" : String) = "5" :=
  cache_key_deterministic_injective.2.2.1 "2024" "5" "2024" "5"
    (by decide) (by decide) rfl

/-- C7 counterexample: after a successful `getRaces("2024")` on a cold cache
nothing is stored under the key `races:2024`; the entry lives under the
resolved path `/2024.json` (with the 1800s TTL). -/
theorem races2024_key_refutes :
    (getRaces [] 0 okRaceUpstream "2024").cache =
      [("/2024.json", ⟨rawRaceBody, 1800⟩)] ∧
    cacheGet (getRaces [] 0 okRaceUpstream "2024").cache 10 "races:2024" = none ∧
    cacheGet (getRaces [] 0 okRaceUpstream "2024").cache 10 "/2024.json" =
      some rawRaceBody :=
  ⟨rfl, rfl, rfl⟩

/-- C7 as amended: requesting races for season "2024" with no live entry
misses, fetches upstream, returns the envelope of the fetched list and
stores the raw body under the key `/2024.json` with the 1800-second TTL. -/
theorem races2024_miss_flow (cache : Cache) (now : Nat) (upstream : Upstream)
    (body : Json)
    (hmiss : cacheGet cache now "/2024.json" = none)
    (hok : upstream "/2024.json" = Except.ok body)
    (_hnn : body ≠ Json.null) :
    getRaces cache now upstream "2024" =
      ⟨Except.ok (racesEnvelope body "2024"),
       cacheSet cache "/2024.json" body 1800 now, true⟩ := by
  have hp : racesPath "2024" = "/2024.json" := rfl
  have httl : getCacheTTL "/2024.json" = 1800 := rfl
  have h1 := makeRequest_miss_ok hmiss hok
  rw [httl] at h1
  simp [getRaces, hp, h1, Except.map]

/-- Witness for the amended C7 on the empty cache. -/
theorem races2024_miss_flow_inst :
    getRaces [] 0 okRaceUpstream "2024" =
      ⟨Except.ok (racesEnvelope rawRaceBody "2024"),
       cacheSet [] "/2024.json" rawRaceBody 1800 0, true⟩ :=
  races2024_miss_flow [] 0 okRaceUpstream rawRaceBody rfl rfl
    (fun h => Json.noConfusion h)

/-- C8 counterexample: 204 is a 2xx status, axios resolves it, yet
`healthCheck` returns `false` because the code compares with `=== 200`. -/
theorem healthCheck_2xx_refutes :
    healthCheck (HealthOutcome.response 204) = false ∧ validateStatus 204 = true :=
  ⟨rfl, rfl⟩

/-- C8 as amended: `healthCheck` is total (every outcome maps to a boolean,
failures included) and returns `true` exactly when the upstream answered
with status exactly 200 — not for every 2xx. -/
theorem healthCheck_iff_200 (o : HealthOutcome) :
    healthCheck o = true ↔ o = HealthOutcome.response 200 := by
  cases o with
  | response s =>
    by_cases h200 : s = 200
    · subst h200
      exact ⟨fun _ => rfl, fun _ => rfl⟩
    · simp only [healthCheck]
      constructor
      · intro h
        cases hv : validateStatus s with
        | false =>
          rw [hv] at h
          simp at h
        | true =>
          rw [hv] at h
          simp at h
          exact absurd h h200
      · intro hcon
        injection hcon with h₂
        exact absurd h₂ h200
  | noResponse => simp [healthCheck]
  | setupFailure => simp [healthCheck]

/-- C9 counterexample: the season value "results" differs from the literal
"current", yet the resolved driver-standings path classifies as periodic
(300s), not default (1800s), because the season itself matches "results". -/
theorem standings_ttl_refutes :
    getCacheTTL (driverStandingsPath "results") = 300 ∧
    ("results" : String) ≠ "current" :=
  ⟨by decide, by decide⟩

/-- C9 as amended: for every season avoiding the five classification
substrings (every year string does), the case-sensitive matcher finds none
of "current", "standings", "results", "drivers", "constructors" in
`/{season}/driverStandings.json` or `/{season}/constructorStandings.json`,
so both standings operations classify as default (1800s), not periodic. -/
theorem standings_default_ttl (s : String) (hs : cleanSeason s) :
    getCacheTTL (driverStandingsPath s) = 1800 ∧
    getCacheTTL (constructorStandingsPath s) = 1800 := by
  have hd : driverStandingsPath s = "/" ++ s ++ "/" ++ "driverStandings.json" := by
    apply string_eq_of_data
    simp only [driverStandingsPath, data_append, List.append_assoc]
    rfl
  have hc : constructorStandingsPath s =
      "/" ++ s ++ "/" ++ "constructorStandings.json" := by
    apply string_eq_of_data
    simp only [constructorStandingsPath, data_append, List.append_assoc]
    rfl
  rw [hd, hc]
  exact ⟨getCacheTTL_sepPath_default s "driverStandings.json" hs
      (by decide) (by decide) (by decide) (by decide) (by decide),
    getCacheTTL_sepPath_default s "constructorStandings.json" hs
      (by decide) (by decide) (by decide) (by decide) (by decide)⟩

/-- Witness for the amended C9 at the season "2024". -/
theorem standings_default_ttl_inst :
    getCacheTTL (driverStandingsPath "2024") = 1800 ∧
    getCacheTTL (constructorStandingsPath "2024") = 1800 :=
  standings_default_ttl "2024" (by decide)

/-- C10 counterexample: `getCurrentSeason` succeeds on the JSON body `false`
(a valid falsy document) and stores it under `/current.json`, yet a
`getRaces("current")` call 10 seconds later — well within the 60s TTL —
still invokes the upstream, because the falsy cached value fails the
`if (cached)` test. -/
theorem shared_key_falsy_refutes :
    (getCurrentSeason [] 0 falseBodyUpstream "2025").result =
      Except.ok (Json.obj [("success", Json.bool true), ("data", Json.arr []),
        ("season", Json.str "2025")]) ∧
    (getRaces (getCurrentSeason [] 0 falseBodyUpstream "2025").cache 10
        falseBodyUpstream "current").upstreamCalled = true ∧
    (10 : Nat) < 0 + 60 :=
  ⟨rfl, rfl, by decide⟩

/-- C10 as amended: `getCurrentSeason` and `getRaces("current")` resolve to
the same key `/current.json`; after either succeeds with a truthy body, the
other is served from the shared entry within the 60s TTL, with no upstream
call, in both directions. -/
theorem current_shared_cache (cache : Cache) (now now₂ : Nat) (u₁ u₂ : Upstream)
    (body : Json) (cy : String)
    (hmiss : cacheGet cache now "/current.json" = none)
    (hok : u₁ "/current.json" = Except.ok body)
    (ht : truthy body = true)
    (hfresh : now₂ < now + 60) :
    racesPath "current" = currentSeasonPath ∧
    getRaces (getCurrentSeason cache now u₁ cy).cache now₂ u₂ "current" =
      ⟨Except.ok (racesEnvelope body "current"),
       (getCurrentSeason cache now u₁ cy).cache, false⟩ ∧
    getCurrentSeason (getRaces cache now u₁ "current").cache now₂ u₂ cy =
      ⟨Except.ok (currentSeasonEnvelope body cy),
       (getRaces cache now u₁ "current").cache, false⟩ := by
  have hp : racesPath "current" = "/current.json" := rfl
  have hcs : currentSeasonPath = "/current.json" := rfl
  have httl : getCacheTTL "/current.json" = 60 := rfl
  have h1 := makeRequest_miss_ok hmiss hok
  rw [httl] at h1
  have hc₁ : (getCurrentSeason cache now u₁ cy).cache =
      cacheSet cache "/current.json" body 60 now := by
    simp [getCurrentSeason, hcs, h1]
  have hc₂ : (getRaces cache now u₁ "current").cache =
      cacheSet cache "/current.json" body 60 now := by
    simp [getRaces, hp, h1]
  have hget : cacheGet (cacheSet cache "/current.json" body 60 now) now₂
      "/current.json" = some body := cacheGet_cacheSet_fresh hfresh
  refine ⟨rfl, ?_, ?_⟩
  · rw [hc₁]
    simp [getRaces, hp, makeRequest_hit hget ht, Except.map]
  · rw [hc₂]
    simp [getCurrentSeason, hcs, makeRequest_hit hget ht, Except.map]

/-- Witness for the amended C10 with an empty-object body; the second call
uses an always-failing upstream, which shows it is never consulted. -/
theorem current_shared_cache_inst :
    racesPath "current" = currentSeasonPath ∧
    getRaces (getCurrentSeason [] 0 objUpstream "2025").cache 10 failUpstream
        "current" =
      ⟨Except.ok (racesEnvelope (Json.obj []) "current"),
       (getCurrentSeason [] 0 objUpstream "2025").cache, false⟩ ∧
    getCurrentSeason (getRaces [] 0 objUpstream "current").cache 10 failUpstream
        "2025" =
      ⟨Except.ok (currentSeasonEnvelope (Json.obj []) "2025"),
       (getRaces [] 0 objUpstream "current").cache, false⟩ :=
  current_shared_cache [] 0 10 objUpstream failUpstream (Json.obj []) "2025"
    rfl rfl rfl (by decide)

end F1Gateway
